import Mathlib

/-!
Shallow embedding of the CALF controller module
(`src/playground/src-2/rcognita/controllers.py`).

Numbers are modelled as rationals; observations, actions and weight vectors
are abstracted to single rational channels except where a claim is about
element-wise vector behaviour (the action-bound clipping, which is modelled
on lists).  External collaborators that are not part of the sources
(the `Clock` from `__utilities`, the `Actor` and `Critic` classes, the
numerical optimizers and the trigonometric / square-root primitives of
numpy) are modelled from the spec, as abstract parameters, or as opaque
state-transition functions; each such definition carries a doc comment
saying so.  Everything else is translated from the python source.
-/

/-- Modelled from the spec (section 4.1); the `Clock` class lives in
`rcognita/__utilities.py`, which is not among the sources.  A clock stores
its constant period, its construction-time origin, and the time of the last
positive reply.  `checkTime` answers true exactly when the queried time has
crossed a period boundary since the last true reply, updating the internal
state. -/
structure Clock where
  period : ℚ
  timeStart : ℚ
  lastAck : ℚ

/-- Modelled from the spec (section 4.1): the boundary test of the clock,
returning the boolean reply together with the updated clock. -/
def Clock.checkTime (c : Clock) (t : ℚ) : Bool × Clock :=
  if c.lastAck + c.period ≤ t then (true, { c with lastAck := t }) else (false, c)

/-- Modelled from the spec (section 4.1): `reset()` rewinds the internal
state to the construction-time origin without altering the period. -/
def Clock.reset (c : Clock) : Clock :=
  { c with lastAck := c.timeStart }

/-- Opaque numerical collaborators of the CALF orchestrators.  The safe
controller, the running objective, the actor model and the critic model
are external to `controllers.py` (they live in the actors / critics
modules, which are not among the sources), so they enter the embedding as
abstract parameter functions, as the spec treats them (sections 4.2 - 4.4). -/
structure CalfParams where
  /-- `actor.safe_controller.compute_action` applied to a (translated)
  observation. -/
  safeAction : ℚ → ℚ
  /-- `actor.running_objective observation action`. -/
  runningObjective : ℚ → ℚ → ℚ
  /-- Action synthesis of `actor.update_action()` from the actor model
  weights in effect and the stored observation. -/
  policy : ℚ → ℚ → ℚ
  /-- `critic.__call__ weights observation`: certificate evaluation. -/
  criticEval : ℚ → ℚ → ℚ
  /-- Weight image of an action under `actor.model.update_and_cache_weights`:
  the fallback action is written into the actor model slots. -/
  toWeights : ℚ → ℚ
  /-- The element-wise clipping performed by the `apply_action_bounds`
  decorator for the configured bounds, as a function of the action. -/
  clip : ℚ → ℚ

/-- Critic state.  Modelled from the spec (sections 3 and 4.4): the
critics module is not among the sources.  `modelWeights` are the weights
in effect, `cacheWeights` the last known-good snapshot, and
`optimizedWeights` the candidate produced by the optimizer. -/
structure CriticState where
  modelWeights : ℚ
  cacheWeights : ℚ
  optimizedWeights : ℚ
  acceptanceStatus : String
  obsLastGood : ℚ
  rPrev : ℚ
  CALFs : List ℚ
  buffer : List (ℚ × ℚ)
  target : ℚ
  clock : Clock

/-- Actor state.  Modelled from the spec (sections 3 and 4.3): the actors
module is not among the sources. -/
structure ActorState where
  action : ℚ
  actionOld : ℚ
  actionInit : ℚ
  modelWeights : ℚ
  cacheWeights : ℚ
  optimizedWeights : ℚ
  acceptanceStatus : String
  receivedObs : ℚ
  target : ℚ

/-- State of an `RLController` / CALF controller: its actor, critic, its
own sampling clock, the stored observation target (set by
`compute_action_sampled`), the `is_fixed_critic_weights` flag, the
`self.action` slot written by the `apply_action_bounds` decorator, and the
`safe_only` flag of `CALFControllerExPost.__init__`. -/
structure CalfState where
  actor : ActorState
  critic : CriticState
  clock : Clock
  obsTarget : ℚ
  isFixedCriticWeights : Bool
  action : ℚ
  safeOnly : Bool

/-- Modelled from the spec (section 4.4): `critic.update_buffers` appends
the (observation, action) pair to the data buffer. -/
def criticUpdateBuffers (c : CriticState) (obs act : ℚ) : CriticState :=
  { c with buffer := c.buffer ++ [(obs, act)] }

/-- Abstract optimizer oracle: `optimize_weights` of the critic and of the
actor are opaque numerical solvers (spec sections 4.3, 4.4 and 6); the
oracle returns the candidate weight vector together with the acceptance
status the component decides for it, as a function of the time and of the
component state visible to it. -/
structure OptOracle where
  criticOpt : ℚ → CriticState → ℚ × String
  actorOpt : ℚ → ActorState → ℚ × String

/-- `self.critic.optimize_weights(time=time)`: stores the candidate
weights and the acceptance status the critic decides (modelled from the
spec, section 4.4, via the oracle). -/
def criticOptimizeS (o : OptOracle) (time : ℚ) (s : CalfState) : CalfState :=
  { s with critic := { s.critic with
      optimizedWeights := (o.criticOpt time s.critic).1,
      acceptanceStatus := (o.criticOpt time s.critic).2 } }

/-- `self.actor.optimize_weights(time=time)` (modelled from the spec,
section 4.3, via the oracle). -/
def actorOptimizeS (o : OptOracle) (time : ℚ) (s : CalfState) : CalfState :=
  { s with actor := { s.actor with
      optimizedWeights := (o.actorOpt time s.actor).1,
      acceptanceStatus := (o.actorOpt time s.actor).2 } }

/-- `self.critic.update_weights()`: substitute the candidate weights into
the model in effect, without touching the cached snapshot (modelled from
the spec, section 4.4). -/
def criticUpdateWeightsS (s : CalfState) : CalfState :=
  { s with critic := { s.critic with modelWeights := s.critic.optimizedWeights } }

/-- Embedding of `CALFControllerExPost.invoke_safe_action` (controllers.py
lines 169-178).  In source order: `critic.restore_weights()` (model
weights revert to the cached snapshot, modelled from the spec section
4.4); the fallback action is computed by the safe controller on
`observation - self.observation_target`; `actor.set_action(action)`;
`actor.model.update_and_cache_weights(action)`; and
`critic.r_prev += running_objective(observation, action)`. -/
def invokeSafeAction (p : CalfParams) (s : CalfState) (obs : ℚ) : CalfState :=
  { s with
    critic := { s.critic with
      modelWeights := s.critic.cacheWeights,
      rPrev := s.critic.rPrev + p.runningObjective obs (p.safeAction (obs - s.obsTarget)) },
    actor := { s.actor with
      action := p.safeAction (obs - s.obsTarget),
      modelWeights := p.toWeights (p.safeAction (obs - s.obsTarget)),
      cacheWeights := p.toWeights (p.safeAction (obs - s.obsTarget)) } }

/-- Lines 184-195 of `CALFControllerExPost.compute_action`: update the
critic data buffers with the current observation and the held action,
store the observation in the actor, and update both targets. -/
def exPostPre (s : CalfState) (obs target : ℚ) : CalfState :=
  { s with
    critic := { criticUpdateBuffers s.critic obs s.actor.action with target := target },
    actor := { s.actor with receivedObs := obs, target := target } }

/-- State after line 197 (`critic.optimize_weights`) of the ExPost
variant. -/
def exPostAfterCriticOpt (o : OptOracle) (time : ℚ) (s : CalfState) (obs target : ℚ) :
    CalfState :=
  criticOptimizeS o time (exPostPre s obs target)

/-- State after line 206 (`actor.optimize_weights`) of the ExPost variant,
reached when the critic weights were accepted: `critic.update_weights()`,
`invoke_safe_action(observation)`, then the actor optimization. -/
def exPostAfterActorOpt (p : CalfParams) (o : OptOracle) (time : ℚ) (s : CalfState)
    (obs target : ℚ) : CalfState :=
  actorOptimizeS o time
    (invokeSafeAction p (criticUpdateWeightsS (exPostAfterCriticOpt o time s obs target)) obs)

/-- Lines 210-217: the fully accepted tail of the ExPost variant:
`actor.update_and_cache_weights()`, `actor.update_action()`,
`critic.observation_last_good = observation`, `critic.cache_weights()`,
and `critic.r_prev = running_objective(observation, actor.action)`. -/
def exPostAcceptTail (p : CalfParams) (obs : ℚ) (s : CalfState) : CalfState :=
  { s with
    actor := { s.actor with
      modelWeights := s.actor.optimizedWeights,
      cacheWeights := s.actor.optimizedWeights,
      action := p.policy s.actor.optimizedWeights s.actor.receivedObs },
    critic := { s.critic with
      obsLastGood := obs,
      cacheWeights := s.critic.modelWeights,
      rPrev := p.runningObjective obs (p.policy s.actor.optimizedWeights s.actor.receivedObs) } }

/-- Embedding of `CALFControllerExPost.compute_action` (lines 180-225).
The `isCriticUpdate` argument exists in the python signature with default
`False` and is not used by the body.  The emitted action is the `action`
field of the actor in the resulting state (`return self.actor.action`). -/
def computeActionExPost (p : CalfParams) (o : OptOracle) (s : CalfState)
    (obs target time : ℚ) (isCriticUpdate : Bool) : CalfState :=
  if (exPostAfterCriticOpt o time s obs target).critic.acceptanceStatus = "accepted" then
    if (exPostAfterActorOpt p o time s obs target).actor.acceptanceStatus = "accepted" then
      exPostAcceptTail p obs (exPostAfterActorOpt p o time s obs target)
    else
      invokeSafeAction p (exPostAfterActorOpt p o time s obs target) obs
  else
    invokeSafeAction p (exPostAfterCriticOpt o time s obs target) obs

/-- Lines 277-281 of the Predictive variant: when the CALF log is not
empty, overwrite its last entry with the stored-weights critic evaluated
at `observation_last_good - observation_target`. -/
def calfsBackfill (p : CalfParams) (c : CriticState) (target : ℚ) : CriticState :=
  if c.CALFs = [] then c
  else { c with
    CALFs := c.CALFs.dropLast ++ [p.criticEval c.cacheWeights (c.obsLastGood - target)] }

/-- Lines 272-281 of `CALFControllerPredictive.compute_action`: if the
actor weight-acceptance status from the previous sample is `"accepted"`,
set `observation_last_good` to the current observation, mark both
acceptance statuses `"rejected"`, and backfill the last CALF log entry. -/
def predictivePreStep (p : CalfParams) (s : CalfState) (obs target : ℚ) : CalfState :=
  if s.actor.acceptanceStatus = "accepted" then
    { s with
      actor := { s.actor with acceptanceStatus := "rejected" },
      critic := calfsBackfill p
        { s.critic with obsLastGood := obs, acceptanceStatus := "rejected" } target }
  else s

/-- Lines 264-269 of the Predictive variant: buffer update and target
updates (the actor receives the observation only after the pre-step). -/
def predictiveBufTargets (s : CalfState) (obs target : ℚ) : CalfState :=
  { s with
    critic := { criticUpdateBuffers s.critic obs s.actor.action with target := target },
    actor := { s.actor with target := target } }

/-- Line 284: `self.actor.receive_observation(observation)` (modelled from
the spec, section 4.3: records the current observation, side effect only). -/
def actorReceiveObs (s : CalfState) (obs : ℚ) : CalfState :=
  { s with actor := { s.actor with receivedObs := obs } }

/-- Lines 264-284 of the Predictive variant: everything before
`critic.optimize_weights`. -/
def predictivePre (p : CalfParams) (s : CalfState) (obs target : ℚ) : CalfState :=
  actorReceiveObs (predictivePreStep p (predictiveBufTargets s obs target) obs target) obs

/-- State after line 286 (`critic.optimize_weights`) of the Predictive
variant. -/
def predictiveAfterCriticOpt (p : CalfParams) (o : OptOracle) (time : ℚ) (s : CalfState)
    (obs target : ℚ) : CalfState :=
  criticOptimizeS o time (predictivePre p s obs target)

/-- State after line 293 (`actor.optimize_weights`) of the Predictive
variant, reached when the critic weights were accepted. -/
def predictiveAfterActorOpt (p : CalfParams) (o : OptOracle) (time : ℚ) (s : CalfState)
    (obs target : ℚ) : CalfState :=
  actorOptimizeS o time
    (invokeSafeAction p (criticUpdateWeightsS (predictiveAfterCriticOpt p o time s obs target)) obs)

/-- Lines 296-299: the fully accepted tail of the Predictive variant:
`actor.update_and_cache_weights()`, `actor.update_action()`,
`critic.cache_weights()`. -/
def predictiveAcceptTail (p : CalfParams) (s : CalfState) : CalfState :=
  { s with
    actor := { s.actor with
      modelWeights := s.actor.optimizedWeights,
      cacheWeights := s.actor.optimizedWeights,
      action := p.policy s.actor.optimizedWeights s.actor.receivedObs },
    critic := { s.critic with cacheWeights := s.critic.modelWeights } }

/-- Embedding of `CALFControllerPredictive.compute_action` (lines
260-320).  As in the ExPost variant, `isCriticUpdate` is present in the
signature and unused. -/
def computeActionPredictive (p : CalfParams) (o : OptOracle) (s : CalfState)
    (obs target time : ℚ) (isCriticUpdate : Bool) : CalfState :=
  if (predictiveAfterCriticOpt p o time s obs target).critic.acceptanceStatus = "accepted" then
    if (predictiveAfterActorOpt p o time s obs target).actor.acceptanceStatus = "accepted" then
      predictiveAcceptTail p (predictiveAfterActorOpt p o time s obs target)
    else
      invokeSafeAction p (predictiveAfterActorOpt p o time s obs target) obs
  else
    invokeSafeAction p (predictiveAfterCriticOpt p o time s obs target) obs

/-- Lines 61-67 of `Controller.compute_action_sampled`: store the
observation target and query both the controller clock and the critic
clock (both are checked on every call, mutating the clock state). -/
def controllerSampledTick (s : CalfState) (time target : ℚ) : CalfState :=
  { s with
    obsTarget := target,
    clock := (Clock.checkTime s.clock time).2,
    critic := { s.critic with clock := (Clock.checkTime s.critic.clock time).2 } }

/-- Lines 69-79 of `Controller.compute_action_sampled`: run the
(abstract, `CA`) `compute_action` exactly when the controller clock
reports a new sample.  `CA` receives the state, the observation, the
time, the target, and the `is_critic_update` boolean computed from the
critic clock and the `is_fixed_critic_weights` flag. -/
def controllerSampledCore (CA : CalfState → ℚ → ℚ → ℚ → Bool → CalfState)
    (s : CalfState) (time obs target : ℚ) : CalfState :=
  if (Clock.checkTime s.clock time).1 then
    CA (controllerSampledTick s time target) obs time target
      ((Clock.checkTime s.critic.clock time).1 && !s.isFixedCriticWeights)
  else
    controllerSampledTick s time target

/-- Embedding of `Controller.compute_action_sampled` (lines 57-79)
together with its `apply_action_bounds` decorator (lines 25-35): the
returned value is `self.actor.action` clipped, and the decorator stores
the clipped action into `self.action`. -/
def controllerComputeActionSampled (p : CalfParams)
    (CA : CalfState → ℚ → ℚ → ℚ → Bool → CalfState)
    (s : CalfState) (time obs target : ℚ) : ℚ × CalfState :=
  (p.clip (controllerSampledCore CA s time obs target).actor.action,
   { controllerSampledCore CA s time obs target with
       action := p.clip (controllerSampledCore CA s time obs target).actor.action })

/-- Embedding of `RLController.reset` (lines 113-122): both clocks are
rewound and `actor.action_old` is set to `actor.action_init`; nothing
else, in particular no weight slot, is touched. -/
def rlControllerReset (s : CalfState) : CalfState :=
  { s with
    clock := s.clock.reset,
    critic := { s.critic with clock := s.critic.clock.reset },
    actor := { s.actor with actionOld := s.actor.actionInit } }

/-- State of `Controller3WRobotDisassembledCLF`: its sampling clock and
the held (two-channel) previous action; `controllerClock` mirrors the
`controller_clock` attribute set at construction. -/
structure Robot3WState where
  clock : Clock
  actionOld : ℚ × ℚ
  controllerClock : ℚ

/-- Embedding of `Controller3WRobotDisassembledCLF.reset` (lines
390-395): only `action_old` is zeroed; the clock is left untouched. -/
def robot3WReset (s : Robot3WState) : Robot3WState :=
  { s with actionOld := (0, 0) }

/-- Embedding of `Controller3WRobotDisassembledCLF.compute_action_sampled`
(lines 558-599).  `CA` abstracts `compute_action` (whose body runs the
bounded scipy minimization, an opaque numerical solver per the spec,
section 4.2) and returns the updated state together with the action.  On
a new sample the freshly computed action is stored into `action_old` and
returned; otherwise the held action is returned. -/
def robot3WSampled (CA : Robot3WState → ℚ → Robot3WState × (ℚ × ℚ))
    (s : Robot3WState) (time obs : ℚ) : (ℚ × ℚ) × Robot3WState :=
  if (Clock.checkTime s.clock time).1 then
    ((CA { s with clock := (Clock.checkTime s.clock time).2 } obs).2,
     { (CA { s with clock := (Clock.checkTime s.clock time).2 } obs).1 with
         actionOld := (CA { s with clock := (Clock.checkTime s.clock time).2 } obs).2 })
  else
    (s.actionOld, { s with clock := (Clock.checkTime s.clock time).2 })

/-- Element-wise clipping of one channel, the scalar semantics of
`np.clip`: values below the lower bound are raised to it, values above
the upper bound are lowered to it. -/
def clipChannel (x lo hi : ℚ) : ℚ := min (max x lo) hi

/-- `np.clip(action, bounds[:, 0], bounds[:, 1])` on a per-channel list of
bounds. -/
def npClip (a : List ℚ) (bs : List (ℚ × ℚ)) : List ℚ :=
  List.zipWith (fun x b => clipChannel x b.1 b.2) a bs

/-- Embedding of the `apply_action_bounds` decorator body (lines 25-35)
as a function of the configured bounds.  `none` is python `None`: it
passes the guard `self.action_bounds != []`, and the subsequent
subscripting `self.action_bounds[:, 0]` raises a `TypeError`.  The empty
list fails the guard, so the action is returned unclipped; a non-empty
bound list is applied element-wise by `np.clip`. -/
def applyActionBounds (bounds : Option (List (ℚ × ℚ))) (a : List ℚ) :
    Except String (List ℚ) :=
  match bounds with
  | none => Except.error "TypeError: NoneType object is not subscriptable"
  | some [] => Except.ok a
  | some bs => Except.ok (npClip a bs)

/-- One step of the CALF controller as constructed by
`CALFControllerExPost.__init__` (lines 153-161): when `safe_only` is
true, `compute_action_sampled` is rebound to the safe controller bound
method, so a call steps only the safe controller state; otherwise the
CALF controller (abstracted here by `calfStep`) runs.  `safeStep` is the
safe controller, an opaque collaborator of the actor. -/
def safeOnlyDispatchStep {σ : Type} (safeStep : σ → ℚ → ℚ → σ × ℚ)
    (calfStep : CalfState → ℚ → ℚ → CalfState × ℚ)
    (st : CalfState × σ) (time obs : ℚ) : (CalfState × σ) × ℚ :=
  if st.1.safeOnly then
    ((st.1, (safeStep st.2 time obs).1), (safeStep st.2 time obs).2)
  else
    (((calfStep st.1 time obs).1, st.2), (calfStep st.1 time obs).2)

/-- Drive the dispatched controller over a sequence of (time,
observation) inputs, collecting the emitted actions. -/
def runCalfDispatch {σ : Type} (safeStep : σ → ℚ → ℚ → σ × ℚ)
    (calfStep : CalfState → ℚ → ℚ → CalfState × ℚ)
    (st : CalfState × σ) : List (ℚ × ℚ) → List ℚ
  | [] => []
  | (t, ob) :: rest =>
      (safeOnlyDispatchStep safeStep calfStep st t ob).2 ::
        runCalfDispatch safeStep calfStep (safeOnlyDispatchStep safeStep calfStep st t ob).1 rest

/-- Drive the safe controller directly over the same input sequence. -/
def runSafeController {σ : Type} (safeStep : σ → ℚ → ℚ → σ × ℚ)
    (s : σ) : List (ℚ × ℚ) → List ℚ
  | [] => []
  | (t, ob) :: rest =>
      (safeStep s t ob).2 :: runSafeController safeStep (safeStep s t ob).1 rest

/-- Trigonometric and square-root primitives used by
`Controller3WRobotNIDisassembledCLF`; they are numpy functions, external
to the sources, and enter the embedding as abstract parameters. -/
structure NIParams where
  cosF : ℚ → ℚ
  sinF : ℚ → ℚ
  sqrtF : ℚ → ℚ

/-- `rc.sign`, the sign function of numpy: zero at zero. -/
def sgn (x : ℚ) : ℚ := if 0 < x then 1 else if x < 0 then -1 else 0

/-- Embedding of `Controller3WRobotNIDisassembledCLF._Cart2NH` (lines
1374-1392). -/
def cart2NH_NI (p : NIParams) (xc yc angle : ℚ) : ℚ × ℚ × ℚ :=
  (angle,
   xc * p.cosF angle + yc * p.sinF angle,
   -2 * (yc * p.cosF angle - xc * p.sinF angle)
     - angle * (xc * p.cosF angle + yc * p.sinF angle))

/-- The `sigma` denominator of the analytic branch of `_zeta` (line
1280). -/
def sigmaNI (p : NIParams) (x0 x1 x2 : ℚ) : ℚ :=
  p.sqrtF (x0 ^ 2 + x1 ^ 2) + p.sqrtF |x2|

/-- The analytic disassembled gradient `nablaL` of `_zeta` (lines
1282-1304), taken when the guard fails. -/
def nablaL (p : NIParams) (x0 x1 x2 : ℚ) : ℚ × ℚ × ℚ :=
  (4 * x0 ^ 3 + |x2| ^ 3 / sigmaNI p x0 x1 x2 ^ 3 * 1 / p.sqrtF (x0 ^ 2 + x1 ^ 2) ^ 3 * 2 * x0,
   4 * x1 ^ 3 + |x2| ^ 3 / sigmaNI p x0 x1 x2 ^ 3 * 1 / p.sqrtF (x0 ^ 2 + x1 ^ 2) ^ 3 * 2 * x1,
   3 * |x2| ^ 2 * sgn x2 + |x2| ^ 3 / sigmaNI p x0 x1 x2 ^ 3 * 1 / p.sqrtF |x2| * sgn x2)

/-- The `sigma_tilde` denominator of the limiting-case branch of `_zeta`
at the fixed reference angle `theta = 0` (lines 1306-1310). -/
def sigmaTilde0 (p : NIParams) (x0 x1 x2 : ℚ) : ℚ :=
  x0 * p.cosF 0 + x1 * p.sinF 0 + p.sqrtF |x2|

/-- The `theta = 0` gradient `nablaF` of `_zeta` (lines 1312-1329),
returned when the guard holds. -/
def nablaF0 (p : NIParams) (x0 x1 x2 : ℚ) : ℚ × ℚ × ℚ :=
  (4 * x0 ^ 3 - 2 * |x2| ^ 3 * p.cosF 0 / sigmaTilde0 p x0 x1 x2 ^ 3,
   4 * x1 ^ 3 - 2 * |x2| ^ 3 * p.sinF 0 / sigmaTilde0 p x0 x1 x2 ^ 3,
   (3 * x0 * p.cosF 0 + 3 * x1 * p.sinF 0 + 2 * p.sqrtF |x2|)
     * x2 ^ 2 * sgn x2 / sigmaTilde0 p x0 x1 x2 ^ 3)

/-- The guard of `_zeta` (line 1331): `xNI[0] == 0 and xNI[1] == 0`. -/
def zetaGuard (x0 x1 : ℚ) : Prop := x0 = 0 ∧ x1 = 0

instance (x0 x1 : ℚ) : Decidable (zetaGuard x0 x1) := by
  unfold zetaGuard; infer_instance

/-- Embedding of `Controller3WRobotNIDisassembledCLF._zeta` (lines
1274-1334): the guarded limiting-case gradient when the guard holds, the
analytic gradient otherwise. -/
def zetaNI (p : NIParams) (x0 x1 x2 : ℚ) : ℚ × ℚ × ℚ :=
  if zetaGuard x0 x1 then nablaF0 p x0 x1 x2 else nablaL p x0 x1 x2

/-- Concrete parameter instance used by witnesses and counterexamples. -/
def pTest : CalfParams :=
  { safeAction := fun d => d + 10
    runningObjective := fun _ _ => 1
    policy := fun w o => w + o
    criticEval := fun w o => w * o
    toWeights := fun a => a
    clip := fun a => a }

/-- Concrete optimizer oracle that always rejects. -/
def oReject : OptOracle :=
  { criticOpt := fun _ _ => (0, "rejected")
    actorOpt := fun _ _ => (0, "rejected") }

/-- Concrete clock whose last positive reply happened after its origin. -/
def clockTest : Clock := { period := 1, timeStart := 0, lastAck := 5 }

/-- Concrete critic state: previously accepted weights, non-empty CALF
log. -/
def criticTest : CriticState :=
  { modelWeights := 11, cacheWeights := 3, optimizedWeights := 7,
    acceptanceStatus := "accepted", obsLastGood := 7, rPrev := 0,
    CALFs := [5], buffer := [], target := 0, clock := clockTest }

/-- Concrete actor state with `"rejected"` acceptance status. -/
def actorTest : ActorState :=
  { action := 9, actionOld := 8, actionInit := 4, modelWeights := 2,
    cacheWeights := 2, optimizedWeights := 6, acceptanceStatus := "rejected",
    receivedObs := 0, target := 0 }

/-- Concrete CALF controller state built from the pieces above. -/
def sTest : CalfState :=
  { actor := actorTest, critic := criticTest, clock := clockTest,
    obsTarget := 0, isFixedCriticWeights := false, action := 9,
    safeOnly := false }

/-- Concrete actor state marked accepted, for the Predictive pre-step
witness. -/
def actorAccepted : ActorState :=
  { actorTest with acceptanceStatus := "accepted" }

/-- Concrete CALF state whose previous actor weights were accepted. -/
def sAccepted : CalfState :=
  { sTest with actor := actorAccepted }

/-- Concrete robot controller state away from its clock origin. -/
def robotTest : Robot3WState :=
  { clock := clockTest, actionOld := (2, 3), controllerClock := 0 }

/-- Trivial abstract `compute_action` used to instantiate the sampled
wrappers in witnesses. -/
def caTest : CalfState → ℚ → ℚ → ℚ → Bool → CalfState := fun s _ _ _ _ => s

/-- Trivial abstract robot `compute_action` used in witnesses. -/
def caRobotTest : Robot3WState → ℚ → Robot3WState × (ℚ × ℚ) :=
  fun s _ => (s, (2, 3))

/-- Concrete safe-controller step on a rational state, for the safe-only
witness. -/
def safeStepTest : ℚ → ℚ → ℚ → ℚ × ℚ := fun s _ ob => (s + 1, ob + s)

/-- Concrete CALF step for the safe-only witness. -/
def calfStepTest : CalfState → ℚ → ℚ → CalfState × ℚ := fun s _ _ => (s, 0)

/-- Concrete CALF state with `safe_only` set. -/
def sSafeOnly : CalfState := { sTest with safeOnly := true }

/-- Concrete trig/sqrt instance for the singularity-guard counterexample. -/
def pNITest : NIParams := { cosF := fun _ => 1, sinF := fun _ => 0, sqrtF := fun _ => 0 }

lemma clipChannel_mem (x lo hi : ℚ) (h : lo ≤ hi) :
    lo ≤ clipChannel x lo hi ∧ clipChannel x lo hi ≤ hi :=
  ⟨le_min (le_max_right x lo) h, min_le_right _ _⟩

lemma npClip_get : ∀ (a : List ℚ) (bs : List (ℚ × ℚ)) (i : ℕ)
    (h1 : i < a.length) (h2 : i < bs.length)
    (h : i < (npClip a bs).length),
    (npClip a bs).get ⟨i, h⟩ =
      clipChannel (a.get ⟨i, h1⟩) (bs.get ⟨i, h2⟩).1 (bs.get ⟨i, h2⟩).2
  | _ :: _, _ :: _, 0, _, _, _ => rfl
  | _ :: a, _ :: bs, i + 1, h1, h2, h =>
      npClip_get a bs i (Nat.lt_of_succ_lt_succ h1) (Nat.lt_of_succ_lt_succ h2)
        (Nat.lt_of_succ_lt_succ h)

/-- C4.  Every call to `invoke_safe_action(observation)` (a) restores the
critic model weights to the cached known-good snapshot (leaving the
snapshot itself unchanged), (b)+(c) computes the fallback action via the
safe controller on the observation relative to the stored observation
target and writes it into the actor current-action slot, and (d) updates
the running-cost baseline `r_prev` using that fallback action. -/
theorem calf_c4_invoke_safe_action_effects (p : CalfParams) (s : CalfState) (obs : ℚ) :
    (invokeSafeAction p s obs).critic.modelWeights = s.critic.cacheWeights ∧
    (invokeSafeAction p s obs).critic.cacheWeights = s.critic.cacheWeights ∧
    (invokeSafeAction p s obs).actor.action = p.safeAction (obs - s.obsTarget) ∧
    (invokeSafeAction p s obs).critic.rPrev =
      s.critic.rPrev + p.runningObjective obs (p.safeAction (obs - s.obsTarget)) :=
  ⟨rfl, rfl, rfl, rfl⟩

/-- C3, counterexample.  With a running objective that is identically 1,
one call to `invoke_safe_action` raises `r_prev` from 0 to 1 and a second
call in the same sample raises it to 2: the baseline after two calls
differs from the baseline after one call, refuting idempotence. -/
theorem calf_c3_counterexample :
    (invokeSafeAction pTest sTest 1).critic.rPrev = 1 ∧
    (invokeSafeAction pTest (invokeSafeAction pTest sTest 1) 1).critic.rPrev = 2 ∧
    ((2 : ℚ) ≠ 1) := by
  refine ⟨?_, ?_, by norm_num⟩ <;>
    norm_num [invokeSafeAction, pTest, sTest, criticTest, actorTest]

/-- C3, amended.  Calling `invoke_safe_action` twice in the same sample
is not idempotent: the second call repeats the state writes of the first
(which are themselves idempotent) but accumulates the running objective
of the observation and the fallback action into `r_prev` a second time,
because the code updates the baseline with `+=` rather than by
recomputation. -/
theorem calf_c3_amended_double_invoke_accumulates (p : CalfParams) (s : CalfState) (obs : ℚ) :
    invokeSafeAction p (invokeSafeAction p s obs) obs =
      { invokeSafeAction p s obs with
        critic := { (invokeSafeAction p s obs).critic with
          rPrev := (invokeSafeAction p s obs).critic.rPrev
            + p.runningObjective obs (p.safeAction (obs - s.obsTarget)) } } :=
  rfl

/-- C5, counterexample.  Leaving `action_bounds` as python `None` is not
a valid no-bounds configuration: `None` passes the `!= []` guard of
`apply_action_bounds` and the subsequent subscripting raises a
`TypeError`, so an action-producing call errors instead of returning the
action unclipped. -/
theorem calf_c5_counterexample :
    applyActionBounds none [(1 : ℚ)] =
      Except.error "TypeError: NoneType object is not subscriptable" :=
  rfl

/-- C5, amended.  The valid no-bounds configuration is the empty list,
for which the action is returned unchanged and without error; a
non-empty per-channel bound list is applied by element-wise clipping, and
whenever `low ≤ high` holds for a channel the clipped action satisfies
`low ≤ action ≤ high` there; configuring `None` raises a `TypeError` on
any action-producing call. -/
theorem calf_c5_amended_bounds :
    (∀ a : List ℚ, applyActionBounds (some []) a = Except.ok a) ∧
    (∀ (a : List ℚ) (b : ℚ × ℚ) (bs : List (ℚ × ℚ)),
      applyActionBounds (some (b :: bs)) a = Except.ok (npClip a (b :: bs))) ∧
    (∀ (a : List ℚ) (bs : List (ℚ × ℚ)) (i : ℕ)
      (h1 : i < a.length) (h2 : i < bs.length) (h : i < (npClip a bs).length),
      (bs.get ⟨i, h2⟩).1 ≤ (bs.get ⟨i, h2⟩).2 →
        (bs.get ⟨i, h2⟩).1 ≤ (npClip a bs).get ⟨i, h⟩ ∧
          (npClip a bs).get ⟨i, h⟩ ≤ (bs.get ⟨i, h2⟩).2) ∧
    (∀ a : List ℚ, applyActionBounds none a =
      Except.error "TypeError: NoneType object is not subscriptable") := by
  refine ⟨fun a => rfl, fun a b bs => rfl, ?_, fun a => rfl⟩
  intro a bs i h1 h2 h hlohi
  rw [npClip_get a bs i h1 h2 h]
  exact clipChannel_mem _ _ _ hlohi

/-- C5, witness for the amended theorem at a concrete channel: with
action 5 and bounds [0, 1], the clipped action lies in the bounds. -/
theorem calf_c5_witness :
    ((([((0 : ℚ), 1)] : List (ℚ × ℚ)).get ⟨0, by decide⟩).1 ≤
        (npClip [5] [((0 : ℚ), 1)]).get ⟨0, by decide⟩ ∧
      (npClip [5] [((0 : ℚ), 1)]).get ⟨0, by decide⟩ ≤
        (([((0 : ℚ), 1)] : List (ℚ × ℚ)).get ⟨0, by decide⟩).2) :=
  calf_c5_amended_bounds.2.2.1 [5] [((0 : ℚ), 1)] 0 (by decide) (by decide) (by decide)
    (by decide)

/-- C7, counterexample.  `Controller3WRobotDisassembledCLF.reset` does
not rewind the controller-owned clock to its construction-time origin:
on a state whose clock last fired at time 5 (origin 0) the clock is
unchanged by `reset`.  Moreover `RLController.reset` resets the actor
`action_old` slot, not the current action: the current action stays 9
although the initial action is 4. -/
theorem calf_c7_counterexample :
    (robot3WReset robotTest).clock.lastAck = 5 ∧
    robotTest.clock.timeStart = 0 ∧ ((5 : ℚ) ≠ 0) ∧
    (rlControllerReset sTest).actor.action = 9 ∧
    sTest.actor.actionInit = 4 ∧ ((9 : ℚ) ≠ 4) := by
  exact ⟨rfl, rfl, by norm_num, rfl, rfl, by norm_num⟩

/-- C7, amended.  `RLController.reset` rewinds the controller clock and
the critic clock to their construction-time origins (keeping the
periods), sets the actor held previous action `action_old` to
`action_init`, and leaves the current action and every learned weight
slot of actor and critic unchanged, so weights persist across episodes;
`Controller3WRobotDisassembledCLF.reset` only zeroes its held action and
leaves its clock untouched. -/
theorem calf_c7_amended_reset_effects :
    (∀ s : CalfState,
      (rlControllerReset s).clock.lastAck = s.clock.timeStart ∧
      (rlControllerReset s).clock.period = s.clock.period ∧
      (rlControllerReset s).critic.clock.lastAck = s.critic.clock.timeStart ∧
      (rlControllerReset s).critic.clock.period = s.critic.clock.period ∧
      (rlControllerReset s).actor.actionOld = s.actor.actionInit ∧
      (rlControllerReset s).actor.action = s.actor.action ∧
      (rlControllerReset s).actor.modelWeights = s.actor.modelWeights ∧
      (rlControllerReset s).actor.cacheWeights = s.actor.cacheWeights ∧
      (rlControllerReset s).actor.optimizedWeights = s.actor.optimizedWeights ∧
      (rlControllerReset s).critic.modelWeights = s.critic.modelWeights ∧
      (rlControllerReset s).critic.cacheWeights = s.critic.cacheWeights ∧
      (rlControllerReset s).critic.optimizedWeights = s.critic.optimizedWeights) ∧
    (∀ r : Robot3WState,
      (robot3WReset r).actionOld = (0, 0) ∧ (robot3WReset r).clock = r.clock) :=
  ⟨fun s => ⟨rfl, rfl, rfl, rfl, rfl, rfl, rfl, rfl, rfl, rfl, rfl, rfl⟩,
   fun r => ⟨rfl, rfl⟩⟩

/-- C8, counterexample.  The observation (x, y, angle) = (0, 0, 1) has
its planar position exactly at the origin, yet the transformed
coordinates are `xNI = (1, 0, 0)` and the guard `xNI[0] == 0 and
xNI[1] == 0` of `_zeta` fails, so the guarded limiting-case branch is
not taken. -/
theorem calf_c8_counterexample :
    (cart2NH_NI pNITest 0 0 1).1 = 1 ∧
    (cart2NH_NI pNITest 0 0 1).2.1 = 0 ∧
    ¬ zetaGuard (cart2NH_NI pNITest 0 0 1).1 (cart2NH_NI pNITest 0 0 1).2.1 := by
  refine ⟨rfl, by simp [cart2NH_NI], by simp [zetaGuard, cart2NH_NI]⟩

/-- C8, amended.  For an observation whose planar position is exactly at
the origin, the transformed coordinates are `(angle, 0, 0)`; the guarded
`theta = 0` branch of `_zeta` is taken exactly when additionally the
heading angle is zero, and in exact arithmetic the disassembled gradient
at such points evaluates to `(4 angle^3, 0, 0)` in either branch (the
floating-point division warnings of numpy have no counterpart here). -/
theorem calf_c8_amended_origin_branch (p : NIParams) (θ : ℚ) :
    cart2NH_NI p 0 0 θ = (θ, 0, 0) ∧
    (zetaGuard (cart2NH_NI p 0 0 θ).1 (cart2NH_NI p 0 0 θ).2.1 ↔ θ = 0) ∧
    zetaNI p θ 0 0 = (4 * θ ^ 3, 0, 0) := by
  refine ⟨by simp [cart2NH_NI], by simp [cart2NH_NI, zetaGuard], ?_⟩
  by_cases hθ : θ = 0
  · subst hθ
    simp [zetaNI, zetaGuard, nablaF0, sigmaTilde0]
  · simp [zetaNI, zetaGuard, hθ, nablaL, sigmaNI]

lemma predictivePre_obsTarget (p : CalfParams) (s : CalfState) (obs target : ℚ) :
    (predictivePre p s obs target).obsTarget = s.obsTarget := by
  unfold predictivePre actorReceiveObs predictivePreStep
  split <;> rfl

lemma predictivePre_cacheWeights (p : CalfParams) (s : CalfState) (obs target : ℚ) :
    (predictivePre p s obs target).critic.cacheWeights = s.critic.cacheWeights := by
  unfold predictivePre actorReceiveObs predictivePreStep calfsBackfill
  split_ifs <;> rfl

/-- C1.  In both CALF orchestrators, whenever the critic acceptance test
or the actor acceptance test does not come out `"accepted"`, the sample
ends in `invoke_safe_action`: the emitted action is the safe-controller
fallback action; the critic cached snapshot is unchanged and the critic
model weights equal that snapshot (the candidate critic weights are not
cached and not left in effect); and the actor model and cached weights
hold the image of the fallback action, not the actor candidate, so the
emitted action is never synthesized from unverified weights. -/
theorem calf_c1_rejection_emits_fallback (p : CalfParams) (o : OptOracle) (s : CalfState)
    (obs target time : ℚ) (icu : Bool) :
    (¬((exPostAfterCriticOpt o time s obs target).critic.acceptanceStatus = "accepted" ∧
        (exPostAfterActorOpt p o time s obs target).actor.acceptanceStatus = "accepted") →
      (computeActionExPost p o s obs target time icu).actor.action
          = p.safeAction (obs - s.obsTarget) ∧
      (computeActionExPost p o s obs target time icu).critic.cacheWeights
          = s.critic.cacheWeights ∧
      (computeActionExPost p o s obs target time icu).critic.modelWeights
          = s.critic.cacheWeights ∧
      (computeActionExPost p o s obs target time icu).actor.cacheWeights
          = p.toWeights (p.safeAction (obs - s.obsTarget)) ∧
      (computeActionExPost p o s obs target time icu).actor.modelWeights
          = p.toWeights (p.safeAction (obs - s.obsTarget))) ∧
    (¬((predictiveAfterCriticOpt p o time s obs target).critic.acceptanceStatus = "accepted" ∧
        (predictiveAfterActorOpt p o time s obs target).actor.acceptanceStatus = "accepted") →
      (computeActionPredictive p o s obs target time icu).actor.action
          = p.safeAction (obs - s.obsTarget) ∧
      (computeActionPredictive p o s obs target time icu).critic.cacheWeights
          = s.critic.cacheWeights ∧
      (computeActionPredictive p o s obs target time icu).critic.modelWeights
          = s.critic.cacheWeights ∧
      (computeActionPredictive p o s obs target time icu).actor.cacheWeights
          = p.toWeights (p.safeAction (obs - s.obsTarget)) ∧
      (computeActionPredictive p o s obs target time icu).actor.modelWeights
          = p.toWeights (p.safeAction (obs - s.obsTarget))) := by
  constructor
  · intro h
    by_cases hc :
        (exPostAfterCriticOpt o time s obs target).critic.acceptanceStatus = "accepted"
    · have ha :
          ¬(exPostAfterActorOpt p o time s obs target).actor.acceptanceStatus = "accepted" :=
        fun hb => h ⟨hc, hb⟩
      unfold computeActionExPost
      rw [if_pos hc, if_neg ha]
      exact ⟨rfl, rfl, rfl, rfl, rfl⟩
    · unfold computeActionExPost
      rw [if_neg hc]
      exact ⟨rfl, rfl, rfl, rfl, rfl⟩
  · intro h
    have ht := predictivePre_obsTarget p s obs target
    have hw := predictivePre_cacheWeights p s obs target
    by_cases hc :
        (predictiveAfterCriticOpt p o time s obs target).critic.acceptanceStatus = "accepted"
    · have ha :
          ¬(predictiveAfterActorOpt p o time s obs target).actor.acceptanceStatus =
            "accepted" :=
        fun hb => h ⟨hc, hb⟩
      unfold computeActionPredictive
      rw [if_pos hc, if_neg ha]
      refine ⟨?_, ?_, ?_, ?_, ?_⟩ <;>
        simp only [predictiveAfterActorOpt, predictiveAfterCriticOpt, actorOptimizeS,
          invokeSafeAction, criticUpdateWeightsS, criticOptimizeS, ht, hw]
    · unfold computeActionPredictive
      rw [if_neg hc]
      refine ⟨?_, ?_, ?_, ?_, ?_⟩ <;>
        simp only [predictiveAfterCriticOpt, invokeSafeAction, criticOptimizeS, ht, hw]

/-- C1, witness: with the always-rejecting oracle both orchestrators emit
the fallback action and keep the known-good weights at a concrete state. -/
theorem calf_c1_witness :
    ((computeActionExPost pTest oReject sTest 1 0 0 false).actor.action
        = pTest.safeAction (1 - sTest.obsTarget) ∧
      (computeActionExPost pTest oReject sTest 1 0 0 false).critic.cacheWeights
        = sTest.critic.cacheWeights ∧
      (computeActionExPost pTest oReject sTest 1 0 0 false).critic.modelWeights
        = sTest.critic.cacheWeights ∧
      (computeActionExPost pTest oReject sTest 1 0 0 false).actor.cacheWeights
        = pTest.toWeights (pTest.safeAction (1 - sTest.obsTarget)) ∧
      (computeActionExPost pTest oReject sTest 1 0 0 false).actor.modelWeights
        = pTest.toWeights (pTest.safeAction (1 - sTest.obsTarget))) ∧
    ((computeActionPredictive pTest oReject sTest 1 0 0 false).actor.action
        = pTest.safeAction (1 - sTest.obsTarget) ∧
      (computeActionPredictive pTest oReject sTest 1 0 0 false).critic.cacheWeights
        = sTest.critic.cacheWeights ∧
      (computeActionPredictive pTest oReject sTest 1 0 0 false).critic.modelWeights
        = sTest.critic.cacheWeights ∧
      (computeActionPredictive pTest oReject sTest 1 0 0 false).actor.cacheWeights
        = pTest.toWeights (pTest.safeAction (1 - sTest.obsTarget)) ∧
      (computeActionPredictive pTest oReject sTest 1 0 0 false).actor.modelWeights
        = pTest.toWeights (pTest.safeAction (1 - sTest.obsTarget))) :=
  ⟨(calf_c1_rejection_emits_fallback pTest oReject sTest 1 0 0 false).1 (by decide),
   (calf_c1_rejection_emits_fallback pTest oReject sTest 1 0 0 false).2 (by decide)⟩

lemma predictivePre_buffer (p : CalfParams) (s : CalfState) (obs target : ℚ) :
    (predictivePre p s obs target).critic.buffer =
      s.critic.buffer ++ [(obs, s.actor.action)] := by
  unfold predictivePre actorReceiveObs predictivePreStep calfsBackfill
  split_ifs <;> rfl

/-- C10.  On every sample of either variant, the critic data buffers are
extended with the current observation paired with the previously held
action, and the actor receives the current observation, before the
critic optimizer runs (the optimizer stage factors through the
buffer-updated pre-state) and regardless of which branch the sample ends
in. -/
theorem calf_c10_buffers_updated_every_sample (p : CalfParams) (o : OptOracle)
    (s : CalfState) (obs target time : ℚ) (icu : Bool) :
    (exPostPre s obs target).critic.buffer = s.critic.buffer ++ [(obs, s.actor.action)] ∧
    (exPostPre s obs target).actor.receivedObs = obs ∧
    exPostAfterCriticOpt o time s obs target = criticOptimizeS o time (exPostPre s obs target) ∧
    (computeActionExPost p o s obs target time icu).critic.buffer
      = s.critic.buffer ++ [(obs, s.actor.action)] ∧
    (computeActionExPost p o s obs target time icu).actor.receivedObs = obs ∧
    (predictivePre p s obs target).critic.buffer
      = s.critic.buffer ++ [(obs, s.actor.action)] ∧
    (predictivePre p s obs target).actor.receivedObs = obs ∧
    predictiveAfterCriticOpt p o time s obs target
      = criticOptimizeS o time (predictivePre p s obs target) ∧
    (computeActionPredictive p o s obs target time icu).critic.buffer
      = s.critic.buffer ++ [(obs, s.actor.action)] ∧
    (computeActionPredictive p o s obs target time icu).actor.receivedObs = obs := by
  refine ⟨rfl, rfl, rfl, ?_, ?_, predictivePre_buffer p s obs target, rfl, rfl, ?_, ?_⟩
  · unfold computeActionExPost
    split
    · split <;> rfl
    · rfl
  · unfold computeActionExPost
    split
    · split <;> rfl
    · rfl
  · unfold computeActionPredictive
    split
    · split
      · exact predictivePre_buffer p s obs target
      · exact predictivePre_buffer p s obs target
    · exact predictivePre_buffer p s obs target
  · unfold computeActionPredictive
    split
    · split <;> rfl
    · rfl

/-- C6, counterexample.  A reachable sample start with
`critic.weights_acceptance_status = "accepted"` but
`actor.weights_acceptance_status = "rejected"` (the outcome of a
critic-accepted / actor-rejected previous sample): the Predictive
pre-step does not fire, so neither the CALF backfill (which would write
3) nor the `observation_last_good` update (which would write 1) happens;
the gate is keyed off the actor status, not the critic status. -/
theorem calf_c6_counterexample :
    sTest.critic.acceptanceStatus = "accepted" ∧
    sTest.actor.acceptanceStatus = "rejected" ∧
    pTest.criticEval sTest.critic.cacheWeights (1 - 0) = 3 ∧
    (computeActionPredictive pTest oReject sTest 1 0 0 false).critic.CALFs = [5] ∧
    (computeActionPredictive pTest oReject sTest 1 0 0 false).critic.obsLastGood = 7 ∧
    ((5 : ℚ) ≠ 3) ∧ ((7 : ℚ) ≠ 1) := by
  refine ⟨rfl, rfl, ?_, rfl, rfl, by norm_num, by norm_num⟩
  norm_num [pTest, sTest, criticTest]

/-- C6, amended.  The Predictive pre-step is keyed off
`actor.weights_acceptance_status`: exactly when the previous sample left
the actor status `"accepted"`, the controller sets
`observation_last_good` to the current observation, marks both statuses
`"rejected"` (forcing re-evaluation), and backfills the last logged CALF
value (when the log is non-empty) with the stored-weights critic
evaluated at `observation - observation_target`; otherwise the pre-step
does nothing.  The subsequent optimize/accept/fallback sequence is keyed
off `critic.weights_acceptance_status` and not off a critic-update clock
gate: the `is_critic_update` argument has no effect on the result. -/
theorem calf_c6_amended_prestep (p : CalfParams) (o : OptOracle) (s : CalfState)
    (obs target time : ℚ) :
    (s.actor.acceptanceStatus = "accepted" →
      (predictivePreStep p s obs target).critic.obsLastGood = obs ∧
      (predictivePreStep p s obs target).critic.acceptanceStatus = "rejected" ∧
      (predictivePreStep p s obs target).actor.acceptanceStatus = "rejected" ∧
      (s.critic.CALFs = [] → (predictivePreStep p s obs target).critic.CALFs = []) ∧
      (s.critic.CALFs ≠ [] →
        (predictivePreStep p s obs target).critic.CALFs =
          s.critic.CALFs.dropLast ++ [p.criticEval s.critic.cacheWeights (obs - target)])) ∧
    (s.actor.acceptanceStatus ≠ "accepted" → predictivePreStep p s obs target = s) ∧
    (∀ b b' : Bool,
      computeActionPredictive p o s obs target time b =
        computeActionPredictive p o s obs target time b') := by
  refine ⟨?_, ?_, fun b b' => rfl⟩
  · intro h
    unfold predictivePreStep
    rw [if_pos h]
    refine ⟨?_, ?_, rfl, ?_, ?_⟩
    · unfold calfsBackfill; split_ifs <;> rfl
    · unfold calfsBackfill; split_ifs <;> rfl
    · intro hnil
      unfold calfsBackfill
      rw [if_pos hnil]
      exact hnil
    · intro hnil
      unfold calfsBackfill
      rw [if_neg hnil]
  · intro h
    unfold predictivePreStep
    rw [if_neg h]

/-- C6, witness for the amended theorem at a concrete accepted state with
a non-empty CALF log. -/
theorem calf_c6_witness :
    ((predictivePreStep pTest sAccepted 1 0).critic.obsLastGood = 1 ∧
      (predictivePreStep pTest sAccepted 1 0).critic.acceptanceStatus = "rejected" ∧
      (predictivePreStep pTest sAccepted 1 0).actor.acceptanceStatus = "rejected" ∧
      (predictivePreStep pTest sAccepted 1 0).critic.CALFs =
        sAccepted.critic.CALFs.dropLast ++
          [pTest.criticEval sAccepted.critic.cacheWeights (1 - 0)]) ∧
    computeActionPredictive pTest oReject sAccepted 1 0 0 true =
      computeActionPredictive pTest oReject sAccepted 1 0 0 false := by
  have h := calf_c6_amended_prestep pTest oReject sAccepted 1 0 0
  have h1 := h.1 rfl
  exact ⟨⟨h1.1, h1.2.1, h1.2.2.1, h1.2.2.2.2 (by decide)⟩, h.2.2 true false⟩

lemma robot3WSampled_actionOld_eq (CA : Robot3WState → ℚ → Robot3WState × (ℚ × ℚ))
    (s : Robot3WState) (t o : ℚ) :
    (robot3WSampled CA s t o).2.actionOld = (robot3WSampled CA s t o).1 := by
  unfold robot3WSampled
  split <;> rfl

lemma controllerSampled_fst (p : CalfParams) (CA : CalfState → ℚ → ℚ → ℚ → Bool → CalfState)
    (s : CalfState) (t o g : ℚ) :
    (controllerComputeActionSampled p CA s t o g).1 =
      p.clip ((controllerComputeActionSampled p CA s t o g).2.actor.action) :=
  rfl

lemma controllerSampled_hold (p : CalfParams) (CA : CalfState → ℚ → ℚ → ℚ → Bool → CalfState)
    (s : CalfState) (t o g : ℚ) (h : (Clock.checkTime s.clock t).1 = false) :
    controllerComputeActionSampled p CA s t o g =
      (p.clip s.actor.action,
       { s with obsTarget := g,
                clock := (Clock.checkTime s.clock t).2,
                critic := { s.critic with clock := (Clock.checkTime s.critic.clock t).2 },
                action := p.clip s.actor.action }) := by
  unfold controllerComputeActionSampled controllerSampledCore controllerSampledTick
  rw [h]
  rfl

lemma robot3WSampled_hold (CA : Robot3WState → ℚ → Robot3WState × (ℚ × ℚ))
    (s : Robot3WState) (t o : ℚ) (h : (Clock.checkTime s.clock t).1 = false) :
    robot3WSampled CA s t o =
      (s.actionOld, { s with clock := (Clock.checkTime s.clock t).2 }) := by
  unfold robot3WSampled
  rw [h]
  rfl

/-- C2.  Zero-order hold.  First conjunct: for the CALF base controller,
on a call at a time the clock does not report as a new sample, the
returned action equals exactly the action returned by the previous call,
and the resulting state differs from the previous one only in the stored
observation target and in both clock states (no orchestration cycle is
run).  Second conjunct: at a sampling boundary the abstract
`compute_action` cycle runs and its freshly computed (clipped) action is
returned.  Third conjunct: the same hold property for
`Controller3WRobotDisassembledCLF.compute_action_sampled`. -/
theorem calf_c2_zero_order_hold :
    (∀ (p : CalfParams) (CA : CalfState → ℚ → ℚ → ℚ → Bool → CalfState) (s : CalfState)
        (t1 o1 g1 t2 o2 g2 : ℚ),
      (Clock.checkTime (controllerComputeActionSampled p CA s t1 o1 g1).2.clock t2).1
          = false →
        (controllerComputeActionSampled p CA
            (controllerComputeActionSampled p CA s t1 o1 g1).2 t2 o2 g2).1
          = (controllerComputeActionSampled p CA s t1 o1 g1).1 ∧
        (controllerComputeActionSampled p CA
            (controllerComputeActionSampled p CA s t1 o1 g1).2 t2 o2 g2).2
          = { (controllerComputeActionSampled p CA s t1 o1 g1).2 with
              obsTarget := g2,
              clock := (Clock.checkTime
                (controllerComputeActionSampled p CA s t1 o1 g1).2.clock t2).2,
              critic := { (controllerComputeActionSampled p CA s t1 o1 g1).2.critic with
                clock := (Clock.checkTime
                  (controllerComputeActionSampled p CA s t1 o1 g1).2.critic.clock t2).2 } }) ∧
    (∀ (p : CalfParams) (CA : CalfState → ℚ → ℚ → ℚ → Bool → CalfState) (s : CalfState)
        (t obs g : ℚ),
      (Clock.checkTime s.clock t).1 = true →
        (controllerComputeActionSampled p CA s t obs g).1 =
          p.clip ((CA (controllerSampledTick s t g) obs t g
            ((Clock.checkTime s.critic.clock t).1 && !s.isFixedCriticWeights)).actor.action)) ∧
    (∀ (CA : Robot3WState → ℚ → Robot3WState × (ℚ × ℚ)) (s : Robot3WState)
        (t1 o1 t2 o2 : ℚ),
      (Clock.checkTime (robot3WSampled CA s t1 o1).2.clock t2).1 = false →
        robot3WSampled CA (robot3WSampled CA s t1 o1).2 t2 o2 =
          ((robot3WSampled CA s t1 o1).1,
           { (robot3WSampled CA s t1 o1).2 with
               clock := (Clock.checkTime (robot3WSampled CA s t1 o1).2.clock t2).2 })) := by
  refine ⟨?_, ?_, ?_⟩
  · intro p CA s t1 o1 g1 t2 o2 g2 h
    rw [controllerSampled_hold p CA _ t2 o2 g2 h]
    exact ⟨(controllerSampled_fst p CA s t1 o1 g1).symm, rfl⟩
  · intro p CA s t obs g h
    unfold controllerComputeActionSampled controllerSampledCore
    rw [h]
    rfl
  · intro CA s t1 o1 t2 o2 h
    rw [robot3WSampled_hold CA _ t2 o2 h]
    simp [robot3WSampled_actionOld_eq]

/-- C2, witness: with a concrete clock that fires at time 10 (period 1,
last reply at 5), a second call at time 21/2 holds the action for both
the CALF base controller and the robot controller, while the call at
time 10 runs the cycle. -/
theorem calf_c2_witness :
    ((controllerComputeActionSampled pTest caTest
        (controllerComputeActionSampled pTest caTest sTest 10 1 0).2 (21/2) 2 0).1
      = (controllerComputeActionSampled pTest caTest sTest 10 1 0).1 ∧
      (controllerComputeActionSampled pTest caTest
        (controllerComputeActionSampled pTest caTest sTest 10 1 0).2 (21/2) 2 0).2
      = { (controllerComputeActionSampled pTest caTest sTest 10 1 0).2 with
          obsTarget := 0,
          clock := (Clock.checkTime
            (controllerComputeActionSampled pTest caTest sTest 10 1 0).2.clock (21/2)).2,
          critic := { (controllerComputeActionSampled pTest caTest sTest 10 1 0).2.critic with
            clock := (Clock.checkTime
              (controllerComputeActionSampled pTest caTest sTest 10 1 0).2.critic.clock
                (21/2)).2 } }) ∧
    ((controllerComputeActionSampled pTest caTest sTest 10 1 0).1 =
      pTest.clip ((caTest (controllerSampledTick sTest 10 0) 1 10 0
        ((Clock.checkTime sTest.critic.clock 10).1 &&
          !sTest.isFixedCriticWeights)).actor.action)) ∧
    (robot3WSampled caRobotTest (robot3WSampled caRobotTest robotTest 10 1).2 (21/2) 2 =
      ((robot3WSampled caRobotTest robotTest 10 1).1,
       { (robot3WSampled caRobotTest robotTest 10 1).2 with
         clock := (Clock.checkTime
           (robot3WSampled caRobotTest robotTest 10 1).2.clock (21/2)).2 })) := by
  refine ⟨calf_c2_zero_order_hold.1 pTest caTest sTest 10 1 0 (21/2) 2 0 ?_,
          calf_c2_zero_order_hold.2.1 pTest caTest sTest 10 1 0 ?_,
          calf_c2_zero_order_hold.2.2 caRobotTest robotTest 10 1 (21/2) 2 ?_⟩
  · norm_num [controllerComputeActionSampled, controllerSampledCore, controllerSampledTick,
      Clock.checkTime, caTest, sTest, clockTest, criticTest, actorTest, pTest]
  · norm_num [Clock.checkTime, sTest, clockTest]
  · norm_num [robot3WSampled, Clock.checkTime, caRobotTest, robotTest, clockTest]

/-- C9.  In safe-only mode, whatever the safe controller, the CALF step
and the input sequence, the sequence of actions emitted through the CALF
controller dispatch equals exactly the sequence obtained by running the
embedded safe controller directly on the same inputs from the same safe
controller state. -/
theorem calf_c9_safe_only_refinement {σ : Type} (safeStep : σ → ℚ → ℚ → σ × ℚ)
    (calfStep : CalfState → ℚ → ℚ → CalfState × ℚ) (c : CalfState)
    (hc : c.safeOnly = true) :
    ∀ (inputs : List (ℚ × ℚ)) (s : σ),
      runCalfDispatch safeStep calfStep (c, s) inputs = runSafeController safeStep s inputs := by
  intro inputs
  induction inputs with
  | nil => intro s; rfl
  | cons hd rest ih =>
      intro s
      obtain ⟨t, ob⟩ := hd
      simp only [runCalfDispatch, runSafeController, safeOnlyDispatchStep, hc, if_true]
      exact congrArg _ (ih _)

/-- C9, witness: a concrete safe-only controller and a two-step input
sequence. -/
theorem calf_c9_witness :
    runCalfDispatch safeStepTest calfStepTest (sSafeOnly, (0 : ℚ)) [(0, 1), (1, 2)] =
      runSafeController safeStepTest (0 : ℚ) [(0, 1), (1, 2)] :=
  calf_c9_safe_only_refinement safeStepTest calfStepTest sSafeOnly rfl [(0, 1), (1, 2)] 0
